import Mathlib

/-!
Shallow embedding of the TouchFeets web application (Next.js + Prisma),
covering the quota/entitlement ledger (src/lib/entitlements.ts), the
fixed-window rate limiter (src/lib/redis.ts), the generation endpoint
(POST /api/generate), the download endpoint (GET /api/download/[id]),
and the Stripe webhook handler (POST /api/stripe/webhook).

Modelling conventions:
- Database rows are passed explicitly; a `none` row means "no row exists".
  Database writes are modelled as total (the code awaits Prisma calls and
  lets infrastructure failures escape the handler).
- The current UTC month (monthUtc) is implicit: every `Option Quota`
  argument denotes the quota row for the current month, matching the
  `where userId, monthUtc` lookups in the source.
- External effects (Redis, fetch, Gemini, blob upload) are oracles: an
  environment record fixes the outcome of each awaited external call.
- Image bytes are `List Nat`; the pixel-level watermark compositor
  (sharp) is an opaque function parameter `wm`.
-/

namespace TouchFeets

/-! ### Data model (prisma schema, §3 of the spec) -/

/-- ImageJob.status enum. -/
inductive JobStatus
  | QUEUED
  | PROCESSING
  | COMPLETED
  | BLOCKED
  | FAILED
deriving DecidableEq, Repr

/-- The coarse cause tags written into ImageJob.blockedReason. -/
inductive BlockedReason
  | RATE_LIMITED
  | QUOTA_EXCEEDED
  | MODEL_ERROR
  | UPLOAD_NOT_CONFIGURED
  | INPUT_OR_UNKNOWN_ERROR
  | SAFETY
deriving DecidableEq, Repr

/-- The per-user, per-month Quota row (fields relevant to the claims). -/
structure Quota where
  freeRemaining : Int
  paidRemaining : Int
  watermarkExempt : Bool
deriving DecidableEq, Repr

/-! ### src/lib/entitlements.ts -/

/-- Plan tiers from entitlements.ts. -/
inductive PlanTier
  | FREE
  | BASIC_50
  | PLUS_200
  | PRO_1000
deriving DecidableEq, Repr

/-- Per-tier quota and watermark policy. -/
structure PlanPolicy where
  monthlyQuota : Int
  watermarkExempt : Bool
deriving DecidableEq, Repr

/-- PLAN_DEFAULTS from entitlements.ts. -/
def PLAN_DEFAULTS : PlanTier → PlanPolicy
  | .FREE => { monthlyQuota := 5, watermarkExempt := false }
  | .BASIC_50 => { monthlyQuota := 50, watermarkExempt := true }
  | .PLUS_200 => { monthlyQuota := 200, watermarkExempt := true }
  | .PRO_1000 => { monthlyQuota := 1000, watermarkExempt := true }

/-- Configured Stripe price ids (environment variables PRICE_ID_*). -/
structure PriceEnv where
  basic : Option String
  plus : Option String
  pro : Option String
deriving DecidableEq, Repr

/-- JS truthiness of an optional string: null/undefined and "" are falsy. -/
def strTruthy : Option String → Bool
  | none => false
  | some s => !(s = "")

/-- planFromStripePriceId: maps a Stripe price id to a tier via the
environment; any unrecognized, unset or falsy combination maps to FREE. -/
def planFromStripePriceId (env : PriceEnv) (priceId : Option String) : PlanTier :=
  if strTruthy priceId && strTruthy env.basic && priceId = env.basic then .BASIC_50
  else if strTruthy priceId && strTruthy env.plus && priceId = env.plus then .PLUS_200
  else if strTruthy priceId && strTruthy env.pro && priceId = env.pro then .PRO_1000
  else .FREE

/-- The row created by getOrCreateQuota when none exists for the month:
freeRemaining = PLAN_DEFAULTS.FREE.monthlyQuota, paidRemaining = 0,
watermarkExempt = false. -/
def freshQuota : Quota :=
  { freeRemaining := (PLAN_DEFAULTS .FREE).monthlyQuota
    paidRemaining := 0
    watermarkExempt := false }

/-- getOrCreateQuota: return the existing row for the month, else create
the free-tier default row. -/
def getOrCreateQuota : Option Quota → Quota
  | some q => q
  | none => freshQuota

/-- decrementQuota: consume paidRemaining first, then freeRemaining; throw
when neither is positive. Returns the updated row. -/
def decrementQuota (row : Option Quota) : Except String Quota :=
  let q := getOrCreateQuota row
  if q.paidRemaining > 0 then
    .ok { q with paidRemaining := q.paidRemaining - 1 }
  else if q.freeRemaining > 0 then
    .ok { q with freeRemaining := q.freeRemaining - 1 }
  else
    .error "Quota exceeded for the current month"

/-- The quota-row effect of applyEntitlementsForSubscription, given the
resolved tier: FREE reverts (cap free at the monthly default, zero paid,
clear the exemption); a paid tier sets paidRemaining to the full tier
quota, sets the exemption flag, and leaves freeRemaining untouched. -/
def syncQuotaForTier (tier : PlanTier) (q : Quota) : Quota :=
  match tier with
  | .FREE =>
      { freeRemaining := min q.freeRemaining (PLAN_DEFAULTS .FREE).monthlyQuota
        paidRemaining := 0
        watermarkExempt := false }
  | t =>
      { q with
        paidRemaining := (PLAN_DEFAULTS t).monthlyQuota
        watermarkExempt := (PLAN_DEFAULTS t).watermarkExempt }

/-- The tier resolved by applyEntitlementsForSubscription from the Stripe
subscription status and price id. -/
def resolveTier (env : PriceEnv) (status : String) (priceId : Option String) : PlanTier :=
  if status = "active" || status = "trialing" then planFromStripePriceId env priceId
  else .FREE

/-- applyEntitlementsForSubscription, restricted to its effect on the
current-month quota row (the subscription upsert and audit log do not
touch Quota). -/
def applyEntitlementsForSubscription (env : PriceEnv) (status : String)
    (priceId : Option String) (row : Option Quota) : Quota :=
  syncQuotaForTier (resolveTier env status priceId) (getOrCreateQuota row)

/-- isWatermarkExempt: watermarkExempt of the current-month row, false
when no row exists (q?.watermarkExempt ?? false). -/
def isWatermarkExempt : Option Quota → Bool
  | some q => q.watermarkExempt
  | none => false

/-! ### src/lib/redis.ts -/

/-- Outcome of one run of the Redis interaction inside rateLimitWindow:
the client may be unconfigured (credentials absent), the calls may throw,
or INCR returns a count and TTL returns an integer. -/
inductive RedisCall
  | unconfigured
  | throws
  | counts (count : Int) (ttl : Int)
deriving DecidableEq, Repr

/-- Result record of rateLimitWindow. -/
structure RLResult where
  allowed : Bool
  remaining : Int
  resetSeconds : Int
deriving DecidableEq, Repr

/-- rateLimitWindow: INCR + EXPIRE fixed window; fail-open when the
client is unconfigured or the Redis calls throw. -/
def rateLimitWindow (call : RedisCall) (windowSeconds : Int) (max : Int) : RLResult :=
  match call with
  | .unconfigured => { allowed := true, remaining := max, resetSeconds := windowSeconds }
  | .throws => { allowed := true, remaining := max, resetSeconds := windowSeconds }
  | .counts count ttl =>
      { allowed := count ≤ max
        remaining := Max.max 0 (max - count)
        resetSeconds := if ttl ≥ 0 then ttl else windowSeconds }

/-! ### POST /api/generate (src/unnamed/part_002) -/

/-- Style enum of BodySchema (z.enum BYZANTINE, GOTHIC, CYBERPUNK). -/
inductive Style
  | BYZANTINE
  | GOTHIC
  | CYBERPUNK
deriving DecidableEq, Repr

/-- Output format enum of BodySchema (z.enum png, webp). -/
inductive OutputFormat
  | png
  | webp
deriving DecidableEq, Repr

/-- Raw JSON body as received. `urlSyntaxOk` abstracts the outcome of
zod's z.string().url() RFC-URL check, which is external library code; the
two explicit .refine predicates are embedded literally below. -/
structure RawBody where
  inputUrl : String
  urlSyntaxOk : Bool
  style : String
  promptVariant : Option String
  outputFormat : Option String
deriving DecidableEq, Repr

/-- Character-list containment helper for strIncludes. -/
def charsInclude (needle : List Char) : List Char → Bool
  | [] => decide (needle = [])
  | c :: rest => List.isPrefixOf needle (c :: rest) || charsInclude needle rest

/-- Substring containment (String.prototype.includes). -/
def strIncludes (hay needle : String) : Bool :=
  charsInclude needle.toList hay.toList

/-- String.prototype.startsWith on the character lists. -/
def strStarts (u p : String) : Bool :=
  List.isPrefixOf p.toList u.toList

/-- The two .refine predicates on inputUrl: http(s) scheme and a
"/uploads/" path segment. -/
def urlRefinementsOk (u : String) : Bool :=
  (strStarts u "https://" || strStarts u "http://") && strIncludes u "/uploads/"

/-- z.enum of the style field. -/
def parseStyle (s : String) : Option Style :=
  if s = "BYZANTINE" then some .BYZANTINE
  else if s = "GOTHIC" then some .GOTHIC
  else if s = "CYBERPUNK" then some .CYBERPUNK
  else none

/-- Optional z.enum of the outputFormat field (absent is fine). -/
def parseOutputFormat : Option String → Option (Option OutputFormat)
  | none => some none
  | some s =>
      if s = "png" then some (some .png)
      else if s = "webp" then some (some .webp)
      else none

/-- A body that passed BodySchema.parse. -/
structure Body where
  inputUrl : String
  style : Style
  promptVariant : Option String
  outputFormat : Option OutputFormat
deriving DecidableEq, Repr

/-- BodySchema.parse: all field validators must pass, else the handler
answers 400. -/
def parseBody (raw : RawBody) : Option Body :=
  if raw.urlSyntaxOk && urlRefinementsOk raw.inputUrl then
    match parseStyle raw.style, parseOutputFormat raw.outputFormat with
    | some st, some fmt =>
        match raw.promptVariant with
        | none => some { inputUrl := raw.inputUrl, style := st, promptVariant := none, outputFormat := fmt }
        | some v =>
            if v.length ≤ 200 then
              some { inputUrl := raw.inputUrl, style := st, promptVariant := some v, outputFormat := fmt }
            else none
    | _, _ => none
  else none

/-- Outcome of `fetch(inputUrl)` / `fetch(outputBlobUrl)`. -/
inductive FetchOutcome
  | ok (bytes : List Nat)
  | notOk (httpStatus : Nat)
  | threw
deriving DecidableEq, Repr

/-- Outcome of the awaited generateStyledJesusFeet call. -/
inductive GeminiOutcome
  | ok (bytes : List Nat) (contentType : String)
  | safetyBlocked
  | modelError
deriving DecidableEq, Repr

/-- Outcome of the awaited blob `put`. -/
inductive UploadOutcome
  | ok (url : String)
  | threw
deriving DecidableEq, Repr

/-- Oracle fixing every awaited external call of one generate request. -/
structure GenEnv where
  redisCall : RedisCall
  quotaRow : Option Quota
  fetchInput : FetchOutcome
  gemini : GeminiOutcome
  blobTokenConfigured : Bool
  upload : UploadOutcome
deriving Repr

/-- Final ImageJob row fields the claims talk about. -/
structure JobRecord where
  status : JobStatus
  blockedReason : Option BlockedReason
  outputBlobUrl : Option String
deriving DecidableEq, Repr

/-- Observable outcome of one POST /api/generate request. `statusTrace`
is the sequence of status values written to the job row, in order,
starting with the QUEUED written at creation. -/
structure GenResult where
  httpStatus : Nat
  returnedId : Bool
  job : Option JobRecord
  statusTrace : List JobStatus
  modelCalled : Bool
  uploadCalled : Bool
  quotaAfter : Option Quota
deriving DecidableEq, Repr

/-- Blob-upload phase (token check, put, COMPLETED write); a throwing put
is caught by the surrounding try and tagged INPUT_OR_UNKNOWN_ERROR. -/
def uploadPhase (env : GenEnv) (qAfter : Option Quota) : GenResult :=
  if !env.blobTokenConfigured then
    { httpStatus := 200, returnedId := true
      job := some { status := .FAILED, blockedReason := some .UPLOAD_NOT_CONFIGURED, outputBlobUrl := none }
      statusTrace := [.QUEUED, .PROCESSING, .FAILED]
      modelCalled := true, uploadCalled := false, quotaAfter := qAfter }
  else
    match env.upload with
    | .ok url =>
        { httpStatus := 200, returnedId := true
          job := some { status := .COMPLETED, blockedReason := none, outputBlobUrl := some url }
          statusTrace := [.QUEUED, .PROCESSING, .COMPLETED]
          modelCalled := true, uploadCalled := true, quotaAfter := qAfter }
    | .threw =>
        { httpStatus := 200, returnedId := true
          job := some { status := .FAILED, blockedReason := some .INPUT_OR_UNKNOWN_ERROR, outputBlobUrl := none }
          statusTrace := [.QUEUED, .PROCESSING, .FAILED]
          modelCalled := true, uploadCalled := true, quotaAfter := qAfter }

/-- Work done after the job reached PROCESSING: input download, Gemini
call, upload; errors map to BLOCKED/SAFETY, FAILED/MODEL_ERROR,
FAILED/UPLOAD_NOT_CONFIGURED or FAILED/INPUT_OR_UNKNOWN_ERROR. -/
def processingPhase (env : GenEnv) (qAfter : Option Quota) : GenResult :=
  match env.fetchInput with
  | .notOk _ =>
      { httpStatus := 200, returnedId := true
        job := some { status := .FAILED, blockedReason := some .INPUT_OR_UNKNOWN_ERROR, outputBlobUrl := none }
        statusTrace := [.QUEUED, .PROCESSING, .FAILED]
        modelCalled := false, uploadCalled := false, quotaAfter := qAfter }
  | .threw =>
      { httpStatus := 200, returnedId := true
        job := some { status := .FAILED, blockedReason := some .INPUT_OR_UNKNOWN_ERROR, outputBlobUrl := none }
        statusTrace := [.QUEUED, .PROCESSING, .FAILED]
        modelCalled := false, uploadCalled := false, quotaAfter := qAfter }
  | .ok _ =>
      match env.gemini with
      | .safetyBlocked =>
          { httpStatus := 200, returnedId := true
            job := some { status := .BLOCKED, blockedReason := some .SAFETY, outputBlobUrl := none }
            statusTrace := [.QUEUED, .PROCESSING, .BLOCKED]
            modelCalled := true, uploadCalled := false, quotaAfter := qAfter }
      | .modelError =>
          { httpStatus := 200, returnedId := true
            job := some { status := .FAILED, blockedReason := some .MODEL_ERROR, outputBlobUrl := none }
            statusTrace := [.QUEUED, .PROCESSING, .FAILED]
            modelCalled := true, uploadCalled := false, quotaAfter := qAfter }
      | .ok _ _ => uploadPhase env qAfter

/-- Quota phase: decrementQuota; a throw fails the job with
QUOTA_EXCEEDED while the job is still QUEUED. -/
def quotaPhase (env : GenEnv) : GenResult :=
  match decrementQuota env.quotaRow with
  | .error _ =>
      { httpStatus := 200, returnedId := true
        job := some { status := .FAILED, blockedReason := some .QUOTA_EXCEEDED, outputBlobUrl := none }
        statusTrace := [.QUEUED, .FAILED]
        modelCalled := false, uploadCalled := false, quotaAfter := env.quotaRow }
  | .ok q2 => processingPhase env (some q2)

/-- Rate-limit phase: rateLimitWindow(key, 60, 10); a denial fails the
job with RATE_LIMITED while it is still QUEUED. -/
def rateLimitPhase (env : GenEnv) : GenResult :=
  if !(rateLimitWindow env.redisCall 60 10).allowed then
    { httpStatus := 200, returnedId := true
      job := some { status := .FAILED, blockedReason := some .RATE_LIMITED, outputBlobUrl := none }
      statusTrace := [.QUEUED, .FAILED]
      modelCalled := false, uploadCalled := false, quotaAfter := env.quotaRow }
  else quotaPhase env

/-- POST /api/generate. `auth` is the session user id (none when
unauthenticated), `rawBody` is the parsed JSON (none when req.json()
threw). -/
def generatePOST (auth : Option String) (rawBody : Option RawBody) (env : GenEnv) : GenResult :=
  match auth with
  | none =>
      { httpStatus := 401, returnedId := false, job := none, statusTrace := []
        modelCalled := false, uploadCalled := false, quotaAfter := env.quotaRow }
  | some _ =>
      match rawBody.bind parseBody with
      | none =>
          { httpStatus := 400, returnedId := false, job := none, statusTrace := []
            modelCalled := false, uploadCalled := false, quotaAfter := env.quotaRow }
      | some _ => rateLimitPhase env

/-! ### GET /api/download/[id] (src/app/api/download/[id]/route.ts) -/

/-- ImageJob fields selected by the download handler. -/
structure JobRow where
  id : String
  userId : String
  status : JobStatus
  outputBlobUrl : Option String
deriving DecidableEq, Repr

/-- Oracle for one download request. `quotaRow` is the current-month
quota row as found by isWatermarkExempt at download time; the job row
itself carries no exemption information. -/
structure DownloadEnv where
  job : Option JobRow
  quotaRow : Option Quota
  fetchOutput : FetchOutcome
deriving Repr

/-- Observable outcome of a download: the HTTP status and the response
bytes (none for the JSON error responses). -/
structure DlResult where
  httpStatus : Nat
  body : Option (List Nat)
deriving DecidableEq, Repr

/-- GET /api/download/[id]. `wm` is the opaque sharp-based
applyVisibleWatermark compositor; a throwing output fetch is uncaught in
the handler and surfaces as a framework 500. -/
def downloadGET (wm : List Nat → List Nat) (auth : Option String)
    (jobId : Option String) (env : DownloadEnv) : DlResult :=
  match auth with
  | none => { httpStatus := 401, body := none }
  | some userId =>
      match jobId with
      | none => { httpStatus := 400, body := none }
      | some _ =>
          match env.job with
          | none => { httpStatus := 404, body := none }
          | some job =>
              if job.userId ≠ userId then { httpStatus := 403, body := none }
              else if job.outputBlobUrl = none || job.status ≠ JobStatus.COMPLETED then
                { httpStatus := 409, body := none }
              else
                match env.fetchOutput with
                | .notOk _ => { httpStatus := 502, body := none }
                | .threw => { httpStatus := 500, body := none }
                | .ok bytes =>
                    if isWatermarkExempt env.quotaRow then
                      { httpStatus := 200, body := some bytes }
                    else
                      { httpStatus := 200, body := some (wm bytes) }

/-! ### POST /api/stripe/webhook (src/app/api/stripe/webhook/route.ts) -/

/-- Subscription row fields updated by the entitlement sync. -/
structure SubRow where
  status : String
  planTier : PlanTier
deriving DecidableEq, Repr

/-- Persistent state touched by the webhook handler: the Redis lock keys,
the WebhookEvent table (unique stripeEventId column), and the
subscription/quota rows of the affected user. -/
structure WebhookState where
  redisConfigured : Bool
  redisLocks : List String
  webhookEventIds : List String
  sub : Option SubRow
  quotaRow : Option Quota
deriving DecidableEq, Repr

/-- The event types the switch statement distinguishes. -/
inductive StripeEventType
  | checkoutSessionCompleted
  | subscriptionUpdated
  | subscriptionDeleted
  | invoicePaymentFailed
  | other
deriving DecidableEq, Repr

/-- A verified Stripe event, together with the outcomes of the lookups
the handler performs for it (subscription id present on the payload,
subscription status/price retrieved from Stripe, user resolved from the
customer id). -/
structure StripeEvent where
  id : String
  type : StripeEventType
  subscriptionPresent : Bool
  status : String
  priceId : Option String
  userFound : Bool
deriving DecidableEq, Repr

/-- stripeEventLockKey from redis.ts. -/
def stripeEventLockKey (eventId : String) : String :=
  "stripe:event:" ++ eventId

/-- tryAcquireIdempotency: true when Redis is unconfigured or throws
(fail open), otherwise SET NX semantics on the lock key. Returns the
acquired flag and the updated lock set. -/
def tryAcquireIdempotency (configured : Bool) (throws : Bool)
    (locks : List String) (key : String) : Bool × List String :=
  if !configured then (true, locks)
  else if throws then (true, locks)
  else if locks.contains key then (false, locks)
  else (true, key :: locks)

/-- recordWebhookEvent: insert into WebhookEvent; a unique violation on
stripeEventId returns false (already recorded). -/
def recordWebhookEvent (ids : List String) (eventId : String) : Bool × List String :=
  if ids.contains eventId then (false, ids) else (true, eventId :: ids)

/-- Full state effect of applyEntitlementsForSubscription: upsert the
subscription row and sync the current-month quota row. -/
def applyEntitlementsState (prices : PriceEnv) (status : String)
    (priceId : Option String) (st : WebhookState) : WebhookState :=
  { st with
    sub := some { status := status, planTier := resolveTier prices status priceId }
    quotaRow := some (applyEntitlementsForSubscription prices status priceId st.quotaRow) }

/-- The switch over event.type: which events invoke the entitlement sync,
and with which status. Returns (entitlements invoked, new state). -/
def handleStripeEvent (prices : PriceEnv) (ev : StripeEvent)
    (st : WebhookState) : Bool × WebhookState :=
  match ev.type with
  | .checkoutSessionCompleted =>
      if ev.subscriptionPresent && ev.userFound then
        (true, applyEntitlementsState prices ev.status ev.priceId st)
      else (false, st)
  | .subscriptionUpdated =>
      if ev.userFound then (true, applyEntitlementsState prices ev.status ev.priceId st)
      else (false, st)
  | .subscriptionDeleted =>
      if ev.userFound then (true, applyEntitlementsState prices ev.status ev.priceId st)
      else (false, st)
  | .invoicePaymentFailed =>
      if ev.subscriptionPresent && ev.userFound then
        (true, applyEntitlementsState prices "past_due" ev.priceId st)
      else (false, st)
  | .other => (false, st)

/-- Observable outcome of one webhook delivery. -/
structure WhResult where
  httpStatus : Nat
  deduped : Bool
  entitlementsApplied : Bool
deriving DecidableEq, Repr

/-- POST /api/stripe/webhook. `eventParse` is none when the signature
check (constructEvent) throws; `redisThrows` makes the idempotency SET
throw this run; `processThrows` makes the Stripe retrieve inside the
switch throw (caught, answered 500 after the event was recorded). -/
def webhookPOST (prices : PriceEnv) (sigPresent : Bool) (secretPresent : Bool)
    (eventParse : Option StripeEvent) (redisThrows : Bool) (processThrows : Bool)
    (st : WebhookState) : WhResult × WebhookState :=
  if !sigPresent then ({ httpStatus := 400, deduped := false, entitlementsApplied := false }, st)
  else if !secretPresent then ({ httpStatus := 500, deduped := false, entitlementsApplied := false }, st)
  else
    match eventParse with
    | none => ({ httpStatus := 400, deduped := false, entitlementsApplied := false }, st)
    | some ev =>
        let acq := tryAcquireIdempotency st.redisConfigured redisThrows st.redisLocks
          (stripeEventLockKey ev.id)
        let st1 := { st with redisLocks := acq.2 }
        if !acq.1 then
          ({ httpStatus := 200, deduped := true, entitlementsApplied := false }, st1)
        else
          let rec2 := recordWebhookEvent st1.webhookEventIds ev.id
          let st2 := { st1 with webhookEventIds := rec2.2 }
          if !rec2.1 then
            ({ httpStatus := 200, deduped := true, entitlementsApplied := false }, st2)
          else if processThrows then
            ({ httpStatus := 500, deduped := false, entitlementsApplied := false }, st2)
          else
            let h := handleStripeEvent prices ev st2
            ({ httpStatus := 200, deduped := false, entitlementsApplied := h.1 }, h.2)

/-! ### Quota operation sequences (for the non-negativity invariant) -/

/-- The three operations that write the quota row. -/
inductive QuotaOp
  | ensure
  | generate
  | sync (prices : PriceEnv) (status : String) (priceId : Option String)

/-- One quota-row write: getOrCreateQuota, the generate-route
decrementQuota (a throw performs no write), or the webhook entitlement
sync. -/
def quotaOpStep (row : Option Quota) : QuotaOp → Option Quota
  | .ensure => some (getOrCreateQuota row)
  | .generate =>
      match decrementQuota row with
      | .ok q => some q
      | .error _ => row
  | .sync prices status priceId =>
      some (applyEntitlementsForSubscription prices status priceId row)

/-- Run a sequence of quota operations. -/
def runQuotaOps (row : Option Quota) (ops : List QuotaOp) : Option Quota :=
  List.foldl quotaOpStep row ops

/-- Both counters of the row (when it exists) are non-negative. -/
def QuotaNonneg (row : Option Quota) : Prop :=
  ∀ q, row = some q → 0 ≤ q.freeRemaining ∧ 0 ≤ q.paidRemaining

/-! ### Status-trace predicates (for the job state machine claims) -/

/-- COMPLETED, BLOCKED and FAILED are the terminal statuses. -/
def isTerminal : JobStatus → Bool
  | .COMPLETED => true
  | .BLOCKED => true
  | .FAILED => true
  | .QUEUED => false
  | .PROCESSING => false

/-- The transition relation asserted by the spec: out of QUEUED only to
PROCESSING, and terminals only out of PROCESSING. -/
def specStepOk : JobStatus → JobStatus → Bool
  | .QUEUED, .PROCESSING => true
  | .PROCESSING, .COMPLETED => true
  | .PROCESSING, .BLOCKED => true
  | .PROCESSING, .FAILED => true
  | _, _ => false

/-- The transition relation the code implements: as specStepOk, plus the
direct QUEUED to FAILED write for rate-limited and quota-exceeded
requests. -/
def codeStepOk : JobStatus → JobStatus → Bool
  | .QUEUED, .PROCESSING => true
  | .QUEUED, .FAILED => true
  | .PROCESSING, .COMPLETED => true
  | .PROCESSING, .BLOCKED => true
  | .PROCESSING, .FAILED => true
  | _, _ => false

/-- Every consecutive pair of a trace satisfies the step relation. -/
def chainOk (step : JobStatus → JobStatus → Bool) : List JobStatus → Bool
  | [] => true
  | [_] => true
  | a :: b :: rest => step a b && chainOk step (b :: rest)

/-- Number of terminal statuses ever written in a trace. -/
def terminalCount (t : List JobStatus) : Nat :=
  (t.filter isTerminal).length

/-! ### Concrete example inputs for witnesses and counterexamples -/

/-- A request body that passes BodySchema. -/
def rawOk : RawBody :=
  { inputUrl := "https://blob.example.com/uploads/a.png"
    urlSyntaxOk := true
    style := "GOTHIC"
    promptVariant := none
    outputFormat := none }

/-- A request body with style BAROQUE, outside the enumerated set. -/
def rawBaroque : RawBody :=
  { rawOk with style := "BAROQUE" }

/-- An exhausted current-month quota row. -/
def quotaExhausted : Quota :=
  { freeRemaining := 0, paidRemaining := 0, watermarkExempt := false }

/-- An environment in which the Redis window counter is over the limit
(11th hit of a 10-per-60s window) and the quota is exhausted. -/
def envRateLimited : GenEnv :=
  { redisCall := .counts 11 30
    quotaRow := some quotaExhausted
    fetchInput := .ok [7]
    gemini := .ok [9] "image/png"
    blobTokenConfigured := true
    upload := .ok "https://blob.example.com/generated/j1.png" }

/-- An environment in which every external call succeeds. -/
def envAllOk : GenEnv :=
  { envRateLimited with redisCall := .counts 1 60, quotaRow := some { freeRemaining := 5, paidRemaining := 0, watermarkExempt := false } }

/-- The parsed form of rawOk. -/
def bodyOk : Body :=
  { inputUrl := "https://blob.example.com/uploads/a.png"
    style := .GOTHIC
    promptVariant := none
    outputFormat := none }

/-- An environment with the rate limiter unconfigured and the quota
exhausted. -/
def envQuotaZero : GenEnv :=
  { envRateLimited with redisCall := .unconfigured }

/-- Configured Stripe price ids for the examples. -/
def pricesEx : PriceEnv :=
  { basic := some "price_basic", plus := some "price_plus", pro := some "price_pro" }

/-- A completed job row owned by user u1. -/
def jobDone : JobRow :=
  { id := "j1", userId := "u1", status := .COMPLETED
    outputBlobUrl := some "https://blob.example.com/generated/j1.png" }

/-- A verified subscription-updated event. -/
def evUpdated : StripeEvent :=
  { id := "evt_1", type := .subscriptionUpdated, subscriptionPresent := true
    status := "active", priceId := some "price_basic", userFound := true }

/-- Webhook state before the first delivery of evUpdated. -/
def whStart : WebhookState :=
  { redisConfigured := true, redisLocks := [], webhookEventIds := []
    sub := none, quotaRow := some quotaExhausted }

/-! ### Theorems -/

/-- C3: decrementQuota consumes the paid allowance first (paidRemaining
positive: only paidRemaining drops by one), the free allowance second
(otherwise, freeRemaining positive: only freeRemaining drops by one), and
throws the quota-exceeded error exactly when both counters are zero. -/
theorem decrementQuota_paid_first_free_second (q : Quota)
    (hf : 0 ≤ q.freeRemaining) (hp : 0 ≤ q.paidRemaining) :
    (0 < q.paidRemaining →
      decrementQuota (some q) = .ok { q with paidRemaining := q.paidRemaining - 1 }) ∧
    (q.paidRemaining = 0 → 0 < q.freeRemaining →
      decrementQuota (some q) = .ok { q with freeRemaining := q.freeRemaining - 1 }) ∧
    (decrementQuota (some q) = .error "Quota exceeded for the current month" ↔
      q.freeRemaining = 0 ∧ q.paidRemaining = 0) := by
  refine ⟨?_, ?_, ?_⟩
  · intro h
    simp only [decrementQuota, getOrCreateQuota]
    rw [if_pos h]
  · intro hp0 hf0
    simp only [decrementQuota, getOrCreateQuota]
    rw [if_neg (by omega), if_pos hf0]
  · simp only [decrementQuota, getOrCreateQuota]
    constructor
    · intro h
      by_cases h1 : q.paidRemaining > 0
      · rw [if_pos h1] at h; exact absurd h (by simp)
      · rw [if_neg h1] at h
        by_cases h2 : q.freeRemaining > 0
        · rw [if_pos h2] at h; exact absurd h (by simp)
        · exact ⟨by omega, by omega⟩
    · rintro ⟨h1, h2⟩
      rw [if_neg (by omega), if_neg (by omega)]

/-- C3 witness: at the concrete row (free 2, paid 1) the paid counter is
consumed first and no error is raised. -/
theorem decrementQuota_paid_first_free_second_witness :
    decrementQuota (some { freeRemaining := 2, paidRemaining := 1, watermarkExempt := false }) =
      .ok { freeRemaining := 2, paidRemaining := 0, watermarkExempt := false } :=
  (decrementQuota_paid_first_free_second
    { freeRemaining := 2, paidRemaining := 1, watermarkExempt := false }
    (by decide) (by decide)).1 (by decide)

/-- C9: the rate limiter fails open — when the counter store is
unconfigured or its calls throw, rateLimitWindow allows the request; a
request is denied only when the store answered and the incremented count
exceeds the window maximum. -/
theorem rateLimitWindow_fails_open (call : RedisCall) (w m : Int) :
    ((call = .unconfigured ∨ call = .throws) →
      (rateLimitWindow call w m).allowed = true) ∧
    ((rateLimitWindow call w m).allowed = false ↔
      ∃ c t, call = .counts c t ∧ m < c) := by
  cases call with
  | unconfigured => simp [rateLimitWindow]
  | throws => simp [rateLimitWindow]
  | counts c t =>
      refine ⟨fun h => by rcases h with h | h <;> exact absurd h (by simp), ?_⟩
      constructor
      · intro h
        refine ⟨c, t, rfl, ?_⟩
        simp only [rateLimitWindow, decide_eq_false_iff_not, not_le] at h
        exact h
      · rintro ⟨c2, t2, he, hlt⟩
        cases he
        simp only [rateLimitWindow, decide_eq_false_iff_not, not_le]
        exact hlt

/-- C9 witness: with the store throwing the request is allowed, and at
count 11 of a 10-max window it is denied. -/
theorem rateLimitWindow_fails_open_witness :
    (rateLimitWindow .throws 60 10).allowed = true ∧
    (rateLimitWindow (.counts 11 30) 60 10).allowed = false :=
  ⟨(rateLimitWindow_fails_open .throws 60 10).1 (Or.inr rfl),
   (rateLimitWindow_fails_open (.counts 11 30) 60 10).2.2 ⟨11, 30, rfl, by decide⟩⟩

/-- Helper: a successful download of a completed, owned job answers 200
with bytes chosen by isWatermarkExempt on the quota row supplied at
download time. -/
theorem downloadGET_completed_ok (wm : List Nat → List Nat) (uid : String)
    (j : JobRow) (bytes : List Nat) (url : String) (qrow : Option Quota)
    (hu : j.userId = uid) (hs : j.status = .COMPLETED) (ho : j.outputBlobUrl = some url) :
    downloadGET wm (some uid) (some j.id) { job := some j, quotaRow := qrow, fetchOutput := .ok bytes } =
      { httpStatus := 200
        body := some (if isWatermarkExempt qrow then bytes else wm bytes) } := by
  simp only [downloadGET, hu, hs, ho, ne_eq, not_true_eq_false, if_false]
  by_cases he : isWatermarkExempt qrow <;> simp [he]

/-- C5: at download time the exemption decision is a function of the
current-month quota row passed in fresh (the job row carries no
exemption field): a non-exempt row yields the watermarked bytes, an
exempt row yields exactly the stored bytes. -/
theorem download_watermark_decision (wm : List Nat → List Nat) (uid : String)
    (j : JobRow) (bytes : List Nat) (url : String) (qrow : Option Quota)
    (hu : j.userId = uid) (hs : j.status = .COMPLETED) (ho : j.outputBlobUrl = some url) :
    downloadGET wm (some uid) (some j.id) { job := some j, quotaRow := qrow, fetchOutput := .ok bytes } =
      { httpStatus := 200
        body := some (if isWatermarkExempt qrow then bytes else wm bytes) } :=
  downloadGET_completed_ok wm uid j bytes url qrow hu hs ho

/-- C5 witness: for the concrete completed job, the exempt row returns
the stored bytes untouched and the non-exempt row returns the
watermarked bytes. -/
theorem download_watermark_decision_witness :
    downloadGET (fun l => 0 :: l) (some "u1") (some "j1")
        { job := some jobDone
          quotaRow := some { freeRemaining := 0, paidRemaining := 49, watermarkExempt := true }
          fetchOutput := .ok [5, 6] } =
      { httpStatus := 200, body := some [5, 6] } ∧
    downloadGET (fun l => 0 :: l) (some "u1") (some "j1")
        { job := some jobDone, quotaRow := some quotaExhausted, fetchOutput := .ok [5, 6] } =
      { httpStatus := 200, body := some [0, 5, 6] } :=
  ⟨download_watermark_decision (fun l => 0 :: l) "u1" jobDone [5, 6]
      "https://blob.example.com/generated/j1.png" (some { freeRemaining := 0, paidRemaining := 49, watermarkExempt := true })
      (by decide) (by decide) (by decide),
   download_watermark_decision (fun l => 0 :: l) "u1" jobDone [5, 6]
      "https://blob.example.com/generated/j1.png" (some quotaExhausted)
      (by decide) (by decide) (by decide)⟩

/-- C10: when no current-month quota row exists, isWatermarkExempt is
false, so a download of a completed job returns the watermarked bytes. -/
theorem no_quota_row_defaults_to_watermark (wm : List Nat → List Nat) (uid : String)
    (j : JobRow) (bytes : List Nat) (url : String)
    (hu : j.userId = uid) (hs : j.status = .COMPLETED) (ho : j.outputBlobUrl = some url) :
    isWatermarkExempt none = false ∧
    downloadGET wm (some uid) (some j.id) { job := some j, quotaRow := none, fetchOutput := .ok bytes } =
      { httpStatus := 200, body := some (wm bytes) } := by
  refine ⟨rfl, ?_⟩
  rw [downloadGET_completed_ok wm uid j bytes url none hu hs ho]
  rfl

/-- C10 witness: the concrete completed job with no quota row downloads
as watermarked bytes. -/
theorem no_quota_row_defaults_to_watermark_witness :
    isWatermarkExempt none = false ∧
    downloadGET (fun l => 0 :: l) (some "u1") (some "j1")
        { job := some jobDone, quotaRow := none, fetchOutput := .ok [5, 6] } =
      { httpStatus := 200, body := some [0, 5, 6] } :=
  no_quota_row_defaults_to_watermark (fun l => 0 :: l) "u1" jobDone [5, 6]
    "https://blob.example.com/generated/j1.png" (by decide) (by decide) (by decide)

/-- Helper: getOrCreateQuota keeps both counters non-negative. -/
theorem getOrCreateQuota_nonneg (row : Option Quota) (h : QuotaNonneg row) :
    0 ≤ (getOrCreateQuota row).freeRemaining ∧ 0 ≤ (getOrCreateQuota row).paidRemaining := by
  cases row with
  | none => exact ⟨by decide, by decide⟩
  | some q => exact h q rfl

/-- Helper: one quota-row write preserves non-negativity of both
counters. -/
theorem quotaOpStep_nonneg (row : Option Quota) (op : QuotaOp)
    (h : QuotaNonneg row) : QuotaNonneg (quotaOpStep row op) := by
  obtain ⟨hf, hp⟩ := getOrCreateQuota_nonneg row h
  cases op with
  | ensure =>
      intro q hq
      simp only [quotaOpStep, Option.some.injEq] at hq
      exact hq ▸ ⟨hf, hp⟩
  | generate =>
      intro q hq
      simp only [quotaOpStep] at hq
      rcases hd : decrementQuota row with e | q2
      · rw [hd] at hq; exact h q hq
      · rw [hd] at hq
        simp only [Option.some.injEq] at hq
        subst hq
        simp only [decrementQuota] at hd
        split at hd
        · rename_i hpos
          simp only [Except.ok.injEq] at hd
          subst hd
          constructor
          · exact hf
          · simpa using by omega
        · split at hd
          · rename_i hfree
            simp only [Except.ok.injEq] at hd
            subst hd
            constructor
            · simpa using by omega
            · exact hp
          · exact absurd hd (by simp)
  | sync prices status priceId =>
      intro q hq
      simp only [quotaOpStep, Option.some.injEq] at hq
      subst hq
      simp only [applyEntitlementsForSubscription]
      cases resolveTier prices status priceId with
      | FREE =>
          constructor
          · simp only [syncQuotaForTier]
            exact le_min hf (by decide)
          · simp [syncQuotaForTier]
      | BASIC_50 => exact ⟨hf, by norm_num [syncQuotaForTier, PLAN_DEFAULTS]⟩
      | PLUS_200 => exact ⟨hf, by norm_num [syncQuotaForTier, PLAN_DEFAULTS]⟩
      | PRO_1000 => exact ⟨hf, by norm_num [syncQuotaForTier, PLAN_DEFAULTS]⟩

/-- C8: along every sequence of quota operations (row creation,
per-generation decrement, entitlement sync) starting from a state with
non-negative counters (in particular from no row at all), both
freeRemaining and paidRemaining stay non-negative. -/
theorem runQuotaOps_nonneg (row : Option Quota) (ops : List QuotaOp)
    (h : QuotaNonneg row) : QuotaNonneg (runQuotaOps row ops) := by
  induction ops generalizing row with
  | nil => exact h
  | cons op rest ih => exact ih (quotaOpStep row op) (quotaOpStep_nonneg row op h)

/-- C8 witness: starting from no quota row, an ensure, two decrements,
an upgrade sync and six further decrements leave the counters at a
concrete non-negative value. -/
theorem runQuotaOps_nonneg_witness :
    QuotaNonneg (runQuotaOps none
      [.ensure, .generate, .generate, .sync pricesEx "active" (some "price_basic"),
       .generate, .generate, .generate, .generate, .generate, .generate]) :=
  runQuotaOps_nonneg none
    [.ensure, .generate, .generate, .sync pricesEx "active" (some "price_basic"),
     .generate, .generate, .generate, .generate, .generate, .generate]
    (by intro q hq; cases hq)

/-- C6 counterexample: a mid-month upgrade to BASIC_50 on the row
(free 2, paid 3) sets paidRemaining to 50, not 3 — the sync does not
leave the numeric counters unchanged. -/
theorem entitlement_sync_changes_paid_counterexample :
    applyEntitlementsForSubscription pricesEx "active" (some "price_basic")
        (some { freeRemaining := 2, paidRemaining := 3, watermarkExempt := false }) =
      { freeRemaining := 2, paidRemaining := 50, watermarkExempt := true } ∧
    (50 : Int) ≠ 3 := by
  exact ⟨by decide, by decide⟩

/-- C6 amended: the sync sets watermarkExempt to the resolved tier's
flag; on an upgrade to a paid tier it leaves freeRemaining unchanged but
resets paidRemaining to the tier's full monthly quota; on reversion to
FREE it caps freeRemaining at the free monthly default and zeroes
paidRemaining. -/
theorem entitlement_sync_effect (prices : PriceEnv) (status : String)
    (priceId : Option String) (q : Quota) :
    (applyEntitlementsForSubscription prices status priceId (some q)).watermarkExempt =
      (PLAN_DEFAULTS (resolveTier prices status priceId)).watermarkExempt ∧
    (resolveTier prices status priceId ≠ .FREE →
      (applyEntitlementsForSubscription prices status priceId (some q)).freeRemaining = q.freeRemaining ∧
      (applyEntitlementsForSubscription prices status priceId (some q)).paidRemaining =
        (PLAN_DEFAULTS (resolveTier prices status priceId)).monthlyQuota) ∧
    (resolveTier prices status priceId = .FREE →
      (applyEntitlementsForSubscription prices status priceId (some q)).freeRemaining =
        min q.freeRemaining (PLAN_DEFAULTS .FREE).monthlyQuota ∧
      (applyEntitlementsForSubscription prices status priceId (some q)).paidRemaining = 0) := by
  simp only [applyEntitlementsForSubscription, getOrCreateQuota]
  cases resolveTier prices status priceId with
  | FREE => exact ⟨rfl, fun h => absurd rfl h, fun _ => ⟨rfl, rfl⟩⟩
  | BASIC_50 => exact ⟨rfl, fun _ => ⟨rfl, rfl⟩, fun h => by cases h⟩
  | PLUS_200 => exact ⟨rfl, fun _ => ⟨rfl, rfl⟩, fun h => by cases h⟩
  | PRO_1000 => exact ⟨rfl, fun _ => ⟨rfl, rfl⟩, fun h => by cases h⟩

/-- C6 amended witness: the upgrade to BASIC_50 on (free 2, paid 3)
keeps free at 2, sets paid to 50 and the flag to true. -/
theorem entitlement_sync_effect_witness :
    (applyEntitlementsForSubscription pricesEx "active" (some "price_basic")
        (some { freeRemaining := 2, paidRemaining := 3, watermarkExempt := false })).freeRemaining = 2 ∧
    (applyEntitlementsForSubscription pricesEx "active" (some "price_basic")
        (some { freeRemaining := 2, paidRemaining := 3, watermarkExempt := false })).paidRemaining = 50 :=
  by
    have h := (entitlement_sync_effect pricesEx "active" (some "price_basic")
      { freeRemaining := 2, paidRemaining := 3, watermarkExempt := false }).2.1 (by decide)
    exact ⟨h.1, h.2⟩

/-- Helper: every path of the generate handler after job creation
answers 200 and returns the job id. -/
theorem rateLimitPhase_responds_ok (env : GenEnv) :
    (rateLimitPhase env).httpStatus = 200 ∧ (rateLimitPhase env).returnedId = true := by
  unfold rateLimitPhase quotaPhase processingPhase uploadPhase
  repeat' split
  all_goals exact ⟨rfl, rfl⟩

/-- Helper: the status trace of every post-creation path is one of the
four written by the handler. -/
theorem rateLimitPhase_trace_cases (env : GenEnv) :
    (rateLimitPhase env).statusTrace = [.QUEUED, .FAILED] ∨
    (rateLimitPhase env).statusTrace = [.QUEUED, .PROCESSING, .COMPLETED] ∨
    (rateLimitPhase env).statusTrace = [.QUEUED, .PROCESSING, .BLOCKED] ∨
    (rateLimitPhase env).statusTrace = [.QUEUED, .PROCESSING, .FAILED] := by
  unfold rateLimitPhase quotaPhase processingPhase uploadPhase
  repeat' split
  all_goals simp

/-- Helper: the status traces any generate request can write. -/
theorem generatePOST_trace_cases (auth : Option String) (raw : Option RawBody) (env : GenEnv) :
    (generatePOST auth raw env).statusTrace = [] ∨
    (generatePOST auth raw env).statusTrace = [.QUEUED, .FAILED] ∨
    (generatePOST auth raw env).statusTrace = [.QUEUED, .PROCESSING, .COMPLETED] ∨
    (generatePOST auth raw env).statusTrace = [.QUEUED, .PROCESSING, .BLOCKED] ∨
    (generatePOST auth raw env).statusTrace = [.QUEUED, .PROCESSING, .FAILED] := by
  cases auth with
  | none => exact Or.inl rfl
  | some u =>
      cases hb : raw.bind parseBody with
      | none =>
          unfold generatePOST
          rw [hb]
          exact Or.inl rfl
      | some b =>
          have : generatePOST (some u) raw env = rateLimitPhase env := by
            unfold generatePOST
            rw [hb]
          rw [this]
          exact Or.inr (rateLimitPhase_trace_cases env)

/-- C1 counterexample: in the run where the fixed-window counter is over
its limit, the job's status trace is QUEUED followed directly by FAILED:
the transition out of QUEUED does not go to PROCESSING, and the terminal
status FAILED is reached from QUEUED, contradicting the claimed chain. -/
theorem job_status_spec_chain_counterexample :
    (generatePOST (some "u1") (some rawOk) envRateLimited).statusTrace =
      [JobStatus.QUEUED, JobStatus.FAILED] ∧
    chainOk specStepOk (generatePOST (some "u1") (some rawOk) envRateLimited).statusTrace = false := by
  exact ⟨rfl, rfl⟩

/-- C1 amended: every status trace follows the code's transition
relation — out of QUEUED to PROCESSING, or directly to FAILED when the
rate limiter or the quota rejects before processing; COMPLETED, BLOCKED
and FAILED otherwise only out of PROCESSING — and no run writes more
than one terminal status. -/
theorem job_status_chain (auth : Option String) (raw : Option RawBody) (env : GenEnv) :
    chainOk codeStepOk (generatePOST auth raw env).statusTrace = true ∧
    terminalCount (generatePOST auth raw env).statusTrace ≤ 1 := by
  rcases generatePOST_trace_cases auth raw env with h | h | h | h | h <;>
    rw [h] <;> exact ⟨by decide, by decide⟩

/-- C2: for an authenticated generate request, 400 is returned exactly
when the body fails BodySchema validation, and every validated body is
answered 200 with the created job id on every execution path. -/
theorem generate_response_contract (uid : String) (raw : Option RawBody) (env : GenEnv) :
    ((generatePOST (some uid) raw env).httpStatus = 400 ↔ raw.bind parseBody = none) ∧
    (∀ b, raw.bind parseBody = some b →
      (generatePOST (some uid) raw env).httpStatus = 200 ∧
      (generatePOST (some uid) raw env).returnedId = true) := by
  cases hb : raw.bind parseBody with
  | none =>
      constructor
      · unfold generatePOST
        rw [hb]
        simp
      · intro b h
        exact Option.noConfusion h
  | some b =>
      have hg : generatePOST (some uid) raw env = rateLimitPhase env := by
        unfold generatePOST
        rw [hb]
      have hok := rateLimitPhase_responds_ok env
      constructor
      · rw [hg, hok.1]
        simp [hb]
      · intro b2 _
        rw [hg]
        exact hok

/-- C2 witness: style BAROQUE is rejected with 400, and the valid body
is answered 200 with the job id even though the same environment would
let every external call succeed. -/
theorem generate_response_contract_witness :
    (generatePOST (some "u1") (some rawBaroque) envAllOk).httpStatus = 400 ∧
    (generatePOST (some "u1") (some rawOk) envAllOk).httpStatus = 200 ∧
    (generatePOST (some "u1") (some rawOk) envAllOk).returnedId = true := by
  refine ⟨(generate_response_contract "u1" (some rawBaroque) envAllOk).1.mpr (by rfl), ?_⟩
  exact (generate_response_contract "u1" (some rawOk) envAllOk).2 bodyOk (by rfl)

/-- C4 counterexample: with the quota exhausted and the window counter
over its limit, the job ends FAILED with blockedReason RATE_LIMITED, not
QUOTA_EXCEEDED as the claim states. -/
theorem quota_exhausted_reason_counterexample :
    envRateLimited.quotaRow = some quotaExhausted ∧
    (generatePOST (some "u1") (some rawOk) envRateLimited).job =
      some { status := .FAILED, blockedReason := some .RATE_LIMITED, outputBlobUrl := none } ∧
    some BlockedReason.RATE_LIMITED ≠ some BlockedReason.QUOTA_EXCEEDED := by
  exact ⟨rfl, rfl, by decide⟩

/-- C4 amended: with the current-month quota exhausted, an authenticated
schema-valid generate request never produces a COMPLETED job, never
calls the model and never uploads output; unless the rate limiter
already failed the job with RATE_LIMITED, the job ends FAILED with
blockedReason QUOTA_EXCEEDED. -/
theorem quota_exhausted_never_completes (uid : String) (raw : RawBody) (b : Body)
    (env : GenEnv) (q : Quota) (hb : parseBody raw = some b)
    (hq : env.quotaRow = some q) (hf : q.freeRemaining = 0) (hp : q.paidRemaining = 0) :
    (∀ j, (generatePOST (some uid) (some raw) env).job = some j → j.status ≠ .COMPLETED) ∧
    (generatePOST (some uid) (some raw) env).modelCalled = false ∧
    (generatePOST (some uid) (some raw) env).uploadCalled = false ∧
    ((rateLimitWindow env.redisCall 60 10).allowed = true →
      (generatePOST (some uid) (some raw) env).job =
        some { status := .FAILED, blockedReason := some .QUOTA_EXCEEDED, outputBlobUrl := none }) := by
  have hb2 : (some raw).bind parseBody = some b := hb
  have hg : generatePOST (some uid) (some raw) env = rateLimitPhase env := by
    unfold generatePOST
    rw [hb2]
  rw [hg]
  have hdec : decrementQuota env.quotaRow = .error "Quota exceeded for the current month" := by
    rw [hq]
    simp only [decrementQuota, getOrCreateQuota]
    rw [if_neg (by omega), if_neg (by omega)]
  unfold rateLimitPhase quotaPhase
  cases hA : (rateLimitWindow env.redisCall 60 10).allowed with
  | false =>
      rw [if_pos (by rfl)]
      refine ⟨?_, rfl, rfl, ?_⟩
      · rintro j hj
        cases hj
        decide
      · intro h
        exact Bool.noConfusion h
  | true =>
      rw [if_neg (by decide), hdec]
      refine ⟨?_, rfl, rfl, fun _ => rfl⟩
      rintro j hj
      cases hj
      decide

/-- C4 witness: with the limiter unconfigured (allowed) and the quota
exhausted, the concrete run ends FAILED with QUOTA_EXCEEDED. -/
theorem quota_exhausted_never_completes_witness :
    (generatePOST (some "u1") (some rawOk) envQuotaZero).job =
      some { status := .FAILED, blockedReason := some .QUOTA_EXCEEDED, outputBlobUrl := none } :=
  (quota_exhausted_never_completes "u1" rawOk bodyOk envQuotaZero quotaExhausted
    (by rfl) (by rfl) (by rfl) (by rfl)).2.2.2 (by rfl)

/-- Helper: the event dispatch only writes the subscription and quota
rows, never the WebhookEvent table. -/
theorem handleStripeEvent_ids (prices : PriceEnv) (ev : StripeEvent) (st : WebhookState) :
    (handleStripeEvent prices ev st).2.webhookEventIds = st.webhookEventIds := by
  unfold handleStripeEvent applyEntitlementsState
  repeat' split
  all_goals rfl

/-- Helper: a first delivery (no lock held, no WebhookEvent row) always
records the event id, whatever Redis does and whether processing throws. -/
theorem webhookPOST_first_ids (prices : PriceEnv) (ev : StripeEvent)
    (st : WebhookState) (rt pt : Bool)
    (hl : st.redisLocks.contains (stripeEventLockKey ev.id) = false)
    (hw : st.webhookEventIds.contains ev.id = false) :
    (webhookPOST prices true true (some ev) rt pt st).2.webhookEventIds =
      ev.id :: st.webhookEventIds := by
  have hl2 : stripeEventLockKey ev.id ∉ st.redisLocks := by simpa using hl
  have hw2 : ev.id ∉ st.webhookEventIds := by simpa using hw
  unfold webhookPOST
  cases hc : st.redisConfigured <;> cases rt <;> cases pt <;>
    simp [tryAcquireIdempotency, recordWebhookEvent, hl2, hw2, handleStripeEvent_ids]

/-- Helper: a delivery whose event id is already in the WebhookEvent
table is answered as deduped, applies no entitlements, and leaves the
subscription and quota rows untouched. -/
theorem webhookPOST_dedupes (prices : PriceEnv) (ev : StripeEvent)
    (st : WebhookState) (rt pt : Bool)
    (h : st.webhookEventIds.contains ev.id = true) :
    (webhookPOST prices true true (some ev) rt pt st).1.deduped = true ∧
    (webhookPOST prices true true (some ev) rt pt st).1.entitlementsApplied = false ∧
    (webhookPOST prices true true (some ev) rt pt st).2.sub = st.sub ∧
    (webhookPOST prices true true (some ev) rt pt st).2.quotaRow = st.quotaRow := by
  have h2 : ev.id ∈ st.webhookEventIds := by simpa using h
  unfold webhookPOST
  cases hc : st.redisConfigured <;> cases rt <;>
    by_cases hk : stripeEventLockKey ev.id ∈ st.redisLocks <;>
      simp [tryAcquireIdempotency, recordWebhookEvent, h2, hk]

/-- C7: delivering the same Stripe event id twice leaves the
subscription and quota rows exactly as after the first delivery: the
second delivery is detected via the Redis idempotency lock or the unique
WebhookEvent row, answers a deduped success, and never invokes the
entitlement update. -/
theorem webhook_duplicate_delivery_idempotent (prices : PriceEnv) (ev : StripeEvent)
    (st : WebhookState) (rt1 pt1 rt2 pt2 : Bool)
    (hl : st.redisLocks.contains (stripeEventLockKey ev.id) = false)
    (hw : st.webhookEventIds.contains ev.id = false) :
    (webhookPOST prices true true (some ev) rt2 pt2
        (webhookPOST prices true true (some ev) rt1 pt1 st).2).1.deduped = true ∧
    (webhookPOST prices true true (some ev) rt2 pt2
        (webhookPOST prices true true (some ev) rt1 pt1 st).2).1.entitlementsApplied = false ∧
    (webhookPOST prices true true (some ev) rt2 pt2
        (webhookPOST prices true true (some ev) rt1 pt1 st).2).2.sub =
      (webhookPOST prices true true (some ev) rt1 pt1 st).2.sub ∧
    (webhookPOST prices true true (some ev) rt2 pt2
        (webhookPOST prices true true (some ev) rt1 pt1 st).2).2.quotaRow =
      (webhookPOST prices true true (some ev) rt1 pt1 st).2.quotaRow := by
  have h1 := webhookPOST_first_ids prices ev st rt1 pt1 hl hw
  have hc : (webhookPOST prices true true (some ev) rt1 pt1 st).2.webhookEventIds.contains ev.id = true := by
    rw [h1]
    simp
  exact webhookPOST_dedupes prices ev _ rt2 pt2 hc

/-- C7 witness: the concrete duplicate delivery of evUpdated after its
first delivery is answered as deduped without a second entitlement
update. -/
theorem webhook_duplicate_delivery_idempotent_witness :
    (webhookPOST pricesEx true true (some evUpdated) false false
        (webhookPOST pricesEx true true (some evUpdated) false false whStart).2).1.deduped = true ∧
    (webhookPOST pricesEx true true (some evUpdated) false false
        (webhookPOST pricesEx true true (some evUpdated) false false whStart).2).1.entitlementsApplied = false :=
  ⟨(webhook_duplicate_delivery_idempotent pricesEx evUpdated whStart false false false false
      (by decide) (by decide)).1,
   (webhook_duplicate_delivery_idempotent pricesEx evUpdated whStart false false false false
      (by decide) (by decide)).2.1⟩

end TouchFeets
